import Mathlib

/-!
Shallow embedding of the `legal-form-ui` booking form
(`src/app/book/page.tsx`, component `BookingFormPage`).

The page is a client-side React component whose observable logic is:
a record of field states (`useState` hooks), pure derived booleans
(`canGoStep2`, `counselReady`, `readyToBook`), a fee computation
(`FEES`, `total`), OTP send/verify click handlers, and an attachment
list with append/remove.  We embed the state as a structure, each
user-interaction handler as an `Action` acting on the state, and the
`disabled`/option-set restrictions of the UI controls as an `enabled`
guard.  JavaScript strings are Lean `String`s; `String.prototype.trim`
is modelled character-wise on `String.data` (the source only ever
compares trimmed lengths, and all concrete inputs are ASCII).
-/

namespace LegalFormUI

/-- `s.length` of a JS string: number of characters. -/
def strLen (s : String) : Nat := s.data.length

/-- `trim()` on a character list: drop whitespace from both ends. -/
def jsTrimChars (cs : List Char) : List Char :=
  ((cs.dropWhile Char.isWhitespace).reverse.dropWhile Char.isWhitespace).reverse

/-- `s.trim().length` of a JS string. -/
def trimLen (s : String) : Nat := (jsTrimChars s.data).length

/-- `s.includes("@")` of a JS string. -/
def hasAtSign (s : String) : Bool := s.data.contains '@'

/-- The `gender` select: `"male" | "female" | "other" | ""`. -/
inductive Gender
  | male
  | female
  | other
  | unset
deriving DecidableEq, Repr

/-- The `PrimaryService` union type of `page.tsx` (`""` is `unset`). -/
inductive PrimaryService
  | get_counsel
  | legal_drafting
  | liaison_lawyers
  | courtroom_tech
  | advocate_vigilance
  | document_review
  | legal_assessment
  | unset
deriving DecidableEq, Repr

/-- The `Urgency` union type: three tiers, no empty member. -/
inductive Urgency
  | standard_24_48
  | within_6
  | within_2
deriving DecidableEq, Repr

/-- The `consultMode` state: `"audio" | "video" | "in_person" | ""`. -/
inductive ConsultMode
  | audio
  | video
  | in_person
  | unset
deriving DecidableEq, Repr

/-- The `pastLegalAction` state: `"yes" | "no" | ""`. -/
inductive PastAction
  | yes
  | no
  | unset
deriving DecidableEq, Repr

/-- `FEES.base`. -/
def FEES_base : Nat := 1500

/-- `FEES.urgency`: the fixed surcharge table. -/
def FEES_urgency : Urgency → Nat
  | .standard_24_48 => 0
  | .within_6 => 500
  | .within_2 => 1000

/-- The `LEGAL_DOMAINS` constant (8 fixed categories). -/
def LEGAL_DOMAINS : List String :=
  ["Corporate, Commercial and Startups",
   "Family and Matrimonial",
   "Property and Real Estate",
   "Criminal Matters",
   "Civil & Consumer Disputes",
   "NRI Specific Services",
   "Employment & Labor",
   "Other"]

/-- The five options of the Time Window `select`. -/
def TIME_WINDOWS : List String :=
  ["10:00 AM - 12:00 PM",
   "12:00 PM - 02:00 PM",
   "02:00 PM - 04:00 PM",
   "04:00 PM - 06:00 PM",
   "06:00 PM - 08:00 PM"]

/-- A staged attachment: file name plus an opaque handle standing in for
the rest of the browser `File` object. -/
structure FileRef where
  name : String
  handle : Nat
deriving DecidableEq, Repr

/-- The whole `useState` state of `BookingFormPage`. -/
structure FormState where
  step : Nat
  name : String
  gender : Gender
  email : String
  emailOtp : String
  phone : String
  phoneOtp : String
  nationality : String
  dob : String
  address : String
  emailOtpSent : Bool
  emailOtpVerified : Bool
  phoneOtpSent : Bool
  phoneOtpVerified : Bool
  primaryService : PrimaryService
  legalDomain : String
  caseDetails : String
  consultMode : ConsultMode
  preferredDate : String
  timeWindow : String
  urgency : Urgency
  pastLegalAction : PastAction
  files : List FileRef
deriving DecidableEq, Repr

/-- The initial state of every `useState` hook. -/
def initState : FormState where
  step := 1
  name := ""
  gender := .unset
  email := ""
  emailOtp := ""
  phone := ""
  phoneOtp := ""
  nationality := ""
  dob := ""
  address := ""
  emailOtpSent := false
  emailOtpVerified := false
  phoneOtpSent := false
  phoneOtpVerified := false
  primaryService := .unset
  legalDomain := ""
  caseDetails := ""
  consultMode := .unset
  preferredDate := "2026-02-20"
  timeWindow := "12:00 PM - 02:00 PM"
  urgency := .standard_24_48
  pastLegalAction := .unset
  files := []

/-- `isCounsel` — `primaryService === "get_counsel"`. -/
def isCounsel (s : FormState) : Bool :=
  decide (s.primaryService = .get_counsel)

/-- `total` — `FEES.base + FEES.urgency[urgency]`. -/
def total (s : FormState) : Nat :=
  FEES_base + FEES_urgency s.urgency

/-- `canGoStep2` — the step-1 gate, exactly as in the source:
trimmed length checks on name/phone/nationality/address, `includes("@")`
on email, and each OTP channel `verified || !sent`. -/
def canGoStep2 (s : FormState) : Bool :=
  (decide (1 < trimLen s.name) &&
   decide (s.gender ≠ .unset) &&
   hasAtSign s.email &&
   decide (8 ≤ trimLen s.phone) &&
   decide (1 < trimLen s.nationality) &&
   decide (5 < trimLen s.address)) &&
  (s.emailOtpVerified || !s.emailOtpSent) &&
  (s.phoneOtpVerified || !s.phoneOtpSent)

/-- `counselReady` — the source returns `false` unless `isCounsel`, then
checks the seven remaining conjuncts.  The source conjunct
`urgency !== ""` is vacuously true because the TS `Urgency` type has no
empty member, so it is omitted here (the Lean `Urgency` has no `unset`
constructor either). -/
def counselReady (s : FormState) : Bool :=
  if ¬ isCounsel s then false
  else
    decide (s.legalDomain ≠ "") &&
    decide (10 ≤ trimLen s.caseDetails) &&
    decide (s.consultMode ≠ .unset) &&
    decide (s.preferredDate ≠ "") &&
    decide (s.timeWindow ≠ "") &&
    decide (s.pastLegalAction ≠ .unset)

/-- `readyToBook` — exactly the source conditional. -/
def readyToBook (s : FormState) : Bool :=
  if s.primaryService = .unset then false
  else if isCounsel s then counselReady s
  else true

/-- `handleDrop` on the attachment list: `Array.from(e.dataTransfer.files)`
appended to `prev` when non-empty (`if (dropped.length) setFiles(...)`). -/
def handleDrop (prev dropped : List FileRef) : List FileRef :=
  if dropped.length ≠ 0 then prev ++ dropped else prev

/-- The `onChange` of the hidden file input: `Array.from(e.target.files)`
appended to `prev` when non-empty — the click-to-pick path. -/
def handlePick (prev chosen : List FileRef) : List FileRef :=
  if chosen.length ≠ 0 then prev ++ chosen else prev

/-- The Remove button at row `idx`:
`prev.filter((_, i) => i !== idx)` — keep every element whose position
differs from `idx`. -/
def removeFileAt (prev : List FileRef) (idx : Nat) : List FileRef :=
  (prev.enum.filter (fun p => decide (p.1 ≠ idx))).map Prod.snd

/-- Every distinct user interaction handler of `BookingFormPage`. -/
inductive Action
  | setName (v : String)
  | setGender (g : Gender)
  | setEmail (v : String)
  | setEmailOtp (v : String)
  | setPhone (v : String)
  | setPhoneOtp (v : String)
  | setNationality (v : String)
  | setDob (v : String)
  | setAddress (v : String)
  | sendEmailOtp
  | verifyEmailOtp
  | sendPhoneOtp
  | verifyPhoneOtp
  | continueToStep2
  | selectService (p : PrimaryService)
  | backToServices
  | setLegalDomain (d : String)
  | setCaseDetails (v : String)
  | setConsultMode (m : ConsultMode)
  | setPreferredDate (v : String)
  | setTimeWindow (t : String)
  | setUrgency (u : Urgency)
  | setPastLegalAction (p : PastAction)
  | addFiles (fs : List FileRef)
  | removeFile (i : Nat)
deriving DecidableEq, Repr

/-- Which interactions the UI actually offers in state `s`:
`disabled` attributes (OTP inputs, Verify buttons, the Continue button)
and fixed option sets (service cards, pill radios, the time-window
`select`, the per-row Remove buttons).  Section collapsing is a purely
visual CSS effect and is not modelled as an enabling condition. -/
def enabled (s : FormState) : Action → Bool
  | .setEmailOtp _ => s.emailOtpSent
  | .setPhoneOtp _ => s.phoneOtpSent
  | .verifyEmailOtp => s.emailOtpSent
  | .verifyPhoneOtp => s.phoneOtpSent
  | .continueToStep2 => canGoStep2 s
  | .selectService p => decide (p ≠ .unset)
  | .setLegalDomain d => LEGAL_DOMAINS.contains d
  | .setConsultMode m => decide (m ≠ .unset)
  | .setTimeWindow t => TIME_WINDOWS.contains t
  | .setPastLegalAction p => decide (p ≠ .unset)
  | .removeFile i => decide (i < s.files.length)
  | _ => true

/-- The state mutation of each handler: field writes for inputs, the
three-write OTP send handlers, the trimmed-length-≥-4 verify handlers,
`setStep(2)` for Continue, `setPrimaryService("")` for both Back
buttons, and the attachment list operations. -/
def apply (s : FormState) : Action → FormState
  | .setName v => { s with name := v }
  | .setGender g => { s with gender := g }
  | .setEmail v => { s with email := v }
  | .setEmailOtp v => { s with emailOtp := v }
  | .setPhone v => { s with phone := v }
  | .setPhoneOtp v => { s with phoneOtp := v }
  | .setNationality v => { s with nationality := v }
  | .setDob v => { s with dob := v }
  | .setAddress v => { s with address := v }
  | .sendEmailOtp =>
      { s with emailOtpSent := true, emailOtpVerified := false, emailOtp := "" }
  | .verifyEmailOtp =>
      { s with emailOtpVerified := decide (4 ≤ trimLen s.emailOtp) }
  | .sendPhoneOtp =>
      { s with phoneOtpSent := true, phoneOtpVerified := false, phoneOtp := "" }
  | .verifyPhoneOtp =>
      { s with phoneOtpVerified := decide (4 ≤ trimLen s.phoneOtp) }
  | .continueToStep2 => { s with step := 2 }
  | .selectService p => { s with primaryService := p }
  | .backToServices => { s with primaryService := .unset }
  | .setLegalDomain d => { s with legalDomain := d }
  | .setCaseDetails v => { s with caseDetails := v }
  | .setConsultMode m => { s with consultMode := m }
  | .setPreferredDate v => { s with preferredDate := v }
  | .setTimeWindow t => { s with timeWindow := t }
  | .setUrgency u => { s with urgency := u }
  | .setPastLegalAction p => { s with pastLegalAction := p }
  | .addFiles fs => { s with files := handleDrop s.files fs }
  | .removeFile i => { s with files := removeFileAt s.files i }

/-- States reachable from the initial render by enabled interactions. -/
inductive Reachable : FormState → Prop
  | init : Reachable initState
  | step {s : FormState} {a : Action} :
      Reachable s → enabled s a = true → Reachable (apply s a)

/-- `Trace s acts t`: from `s`, performing the enabled interactions
`acts` in order ends in `t`. -/
inductive Trace : FormState → List Action → FormState → Prop
  | nil {s : FormState} : Trace s [] s
  | cons {s t : FormState} {a : Action} {acts : List Action} :
      enabled s a = true → Trace (apply s a) acts t → Trace s (a :: acts) t

/-! Concrete states and inputs used by the claim theorems. -/

/-- The spec-conditions of claim C1, written from the words of the spec
(raw string lengths, no trimming) for the refutation of C1 as stated. -/
def specBasicRaw (s : FormState) : Prop :=
  1 < strLen s.name ∧ s.gender ≠ .unset ∧ hasAtSign s.email = true ∧
  8 ≤ strLen s.phone ∧ 1 < strLen s.nationality ∧ 5 < strLen s.address

/-- A VerificationState is non-blocking: verified, or a send was never
triggered. -/
def nonBlocking (sent verified : Bool) : Prop :=
  verified = true ∨ sent = false

/-- The spec-conditions of claim C3, written from the words of the spec
(raw `caseDetails` length, no trimming), for the refutation of C3 as
stated. -/
def specCounselRaw (s : FormState) : Prop :=
  s.primaryService = .get_counsel ∧ s.legalDomain ≠ "" ∧
  10 ≤ strLen s.caseDetails ∧ s.consultMode ≠ .unset ∧
  s.preferredDate ≠ "" ∧ s.timeWindow ≠ "" ∧ s.pastLegalAction ≠ .unset

/-- The spec example state of claim C1: all six fields filled, no OTP
ever sent. -/
def exGood : FormState := { initState with
  name := "Jo", gender := .male, email := "a@b.com", phone := "12345678",
  nationality := "IN", address := "123 Main St City" }

/-- Counterexample state for C1 as stated: every raw length passes the
claim thresholds, but trailing blanks make every trimmed length fail. -/
def exC1 : FormState := { initState with
  name := "a ", gender := .male, email := "a@b.com", phone := "1234567 ",
  nationality := "I ", address := "12345 " }

/-- Counterexample state for C3 as stated: `caseDetails` has raw length
10 but trimmed length 2. -/
def exC3 : FormState := { initState with
  primaryService := .get_counsel, legalDomain := "Other",
  caseDetails := "ab        ", consultMode := .audio,
  pastLegalAction := .yes }

/-- A fully filled counsel state used to instantiate C3 amended. -/
def exC3ready : FormState := { initState with
  primaryService := .get_counsel, legalDomain := "Other",
  caseDetails := "builder agreement review", consultMode := .audio,
  pastLegalAction := .yes }

/-- A non-counsel selection used to instantiate C4. -/
def exC4other : FormState := { initState with
  primaryService := .legal_drafting }

/-- Counterexample state for C5 as stated: OTP sent, then four blank
characters entered as the code. -/
def exC5 : FormState :=
  apply (apply initState .sendEmailOtp) (.setEmailOtp "    ")

/-- A state used to instantiate C5 amended: OTP sent and a 4-character
code entered. -/
def exC5ok : FormState :=
  apply (apply initState .sendEmailOtp) (.setEmailOtp "1234")

/-- A reachable state with both channels verified, used to witness C6:
send each OTP, enter a 4-character code on each, verify each. -/
def exC6 : FormState :=
  apply (apply (apply (apply (apply (apply initState
    .sendEmailOtp) (.setEmailOtp "1234")) .verifyEmailOtp)
    .sendPhoneOtp) (.setPhoneOtp "5678")) .verifyPhoneOtp

/-- A demo attachment list for C7. -/
def exFiles : List FileRef := [⟨"a.pdf", 0⟩, ⟨"b.docx", 1⟩, ⟨"a.pdf", 2⟩]

/-- Demo files to add for C7 (a same-name duplicate included). -/
def exNewFiles : List FileRef := [⟨"a.pdf", 3⟩, ⟨"c.png", 4⟩]

/-- The interaction sequence used to witness C8: fill the six required
fields, then press Continue. -/
def exC8Acts : List Action :=
  [.setName "Jo", .setGender .male, .setEmail "a@b.com",
   .setPhone "12345678", .setNationality "IN",
   .setAddress "123 Main St City", .continueToStep2]

/-- The state reached by `exC8Acts`. -/
def exC8End : FormState :=
  apply (apply (apply (apply (apply (apply (apply initState
    (.setName "Jo")) (.setGender .male)) (.setEmail "a@b.com"))
    (.setPhone "12345678")) (.setNationality "IN"))
    (.setAddress "123 Main St City")) .continueToStep2

/-- A filled state used to instantiate the frame claim C9. -/
def exC9 : FormState := { exGood with
  step := 2, primaryService := .document_review,
  files := [⟨"a.pdf", 0⟩] }

/-- The state immediately after selecting get_counsel from the initial
state. -/
def counselSelState : FormState :=
  apply initState (.selectService .get_counsel)

/-- The `counselSelState` with the four remaining counsel fields
filled, used to witness C10. -/
def exC10filled : FormState := { counselSelState with
  legalDomain := "Other", caseDetails := "0123456789",
  consultMode := .audio, pastLegalAction := .yes }

/-- `quote()` as described by the spec: base, surcharge, total. -/
structure Quote where
  base : Nat
  surcharge : Nat
  quoteTotal : Nat
deriving DecidableEq, Repr

/-- The quote shown in the Ready-to-Book card: `FEES.base`, the urgency
surcharge `FEES.urgency[urgency]`, and `total`. -/
def quote (u : Urgency) : Quote :=
  ⟨FEES_base, FEES_urgency u, FEES_base + FEES_urgency u⟩

/-! Claim theorems. -/

/-- C1 (counterexample): the claim as stated is false on the code.  In
`exC1` every raw-length constraint of the claim holds (name length 2 >
1, phone length 8 ≥ 8, nationality length 2 > 1, address length 6 > 5,
gender set, email contains "@") and no OTP was ever sent, yet
`canGoStep2` is `false`, because the source trims each string before
measuring it. -/
theorem c1_counterexample :
    canGoStep2 exC1 = false ∧ specBasicRaw exC1 ∧
    nonBlocking exC1.emailOtpSent exC1.emailOtpVerified ∧
    nonBlocking exC1.phoneOtpSent exC1.phoneOtpVerified := by
  unfold specBasicRaw nonBlocking
  exact ⟨by decide, by decide, by decide, by decide⟩

/-- C1 (amended): `canGoStep2` is true iff the six basic constraints
hold on the TRIMMED strings (trimmed name length > 1, gender set, email
contains "@", trimmed phone length ≥ 8, trimmed nationality length > 1,
trimmed address length > 5) and both verification states are
non-blocking; and the spec example state with no OTP sent yields
true. -/
theorem c1_amended :
    (∀ s : FormState,
      canGoStep2 s = true ↔
        ((1 < trimLen s.name ∧ s.gender ≠ .unset ∧ hasAtSign s.email = true ∧
          8 ≤ trimLen s.phone ∧ 1 < trimLen s.nationality ∧
          5 < trimLen s.address) ∧
         nonBlocking s.emailOtpSent s.emailOtpVerified ∧
         nonBlocking s.phoneOtpSent s.phoneOtpVerified)) ∧
    canGoStep2 exGood = true := by
  constructor
  · intro s
    simp only [canGoStep2, nonBlocking, Bool.and_eq_true, Bool.or_eq_true,
      Bool.not_eq_true', decide_eq_true_eq]
    tauto
  · decide

/-- C1 (witness): `c1_amended` instantiated at the spec example state
`exGood`, its right-hand side discharged concretely. -/
theorem c1_witness : canGoStep2 exGood = true := by
  refine (c1_amended.1 exGood).mpr ?_
  unfold nonBlocking
  exact ⟨by decide, Or.inr (by decide), Or.inr (by decide)⟩

/-- C2 (confirmed): the quote is a pure function of the urgency tier
alone — the `total` derived from any form state equals the total of
`quote` of its urgency — with base fixed at 1500, surcharge from the
fixed table {standard_24_48 ↦ 0, within_6 ↦ 500, within_2 ↦ 1000},
total = base + surcharge, and totals 1500 / 2000 / 2500 per tier. -/
theorem c2_quote :
    (∀ s : FormState, total s = (quote s.urgency).quoteTotal) ∧
    (∀ u : Urgency,
      (quote u).base = 1500 ∧
      (quote u).quoteTotal = (quote u).base + (quote u).surcharge) ∧
    (quote .standard_24_48).surcharge = 0 ∧
    (quote .within_6).surcharge = 500 ∧
    (quote .within_2).surcharge = 1000 ∧
    (quote .standard_24_48).quoteTotal = 1500 ∧
    (quote .within_6).quoteTotal = 2000 ∧
    (quote .within_2).quoteTotal = 2500 := by
  refine ⟨fun s => rfl, fun u => ?_, by decide, by decide, by decide,
    by decide, by decide, by decide⟩
  cases u <;> simp [quote, FEES_base, FEES_urgency]

/-- C2 (witness): instantiation of the universally quantified parts of
`c2_quote` at the concrete state `exC3ready` (urgency standard) and the
tier `within_6`. -/
theorem c2_witness :
    total exC3ready = (quote exC3ready.urgency).quoteTotal ∧
    (quote .within_6).base = 1500 := by
  exact ⟨c2_quote.1 exC3ready, (c2_quote.2.1 .within_6).1⟩

/-- C3 (counterexample): the claim as stated is false on the code.  In
`exC3` the counsel flow is active and every field of the claim is set,
with `caseDetails` of raw length 10 ("ab" plus eight blanks), yet
`counselReady` is `false`, because the source trims `caseDetails`
before measuring it. -/
theorem c3_counterexample :
    counselReady exC3 = false ∧ specCounselRaw exC3 := by
  unfold specCounselRaw
  exact ⟨by decide, by decide⟩

/-- C3 (amended): `counselReady` is true iff the counsel flow is active
and `legalDomain` is set and the TRIMMED `caseDetails` length is ≥ 10
and `consultMode` is set and `preferredDate`, `timeWindow` are
non-empty and `pastLegalAction` is set — a pure function of the final
field values, so the order of filling cannot matter. -/
theorem c3_amended (s : FormState) :
    counselReady s = true ↔
      (s.primaryService = .get_counsel ∧ s.legalDomain ≠ "" ∧
       10 ≤ trimLen s.caseDetails ∧ s.consultMode ≠ .unset ∧
       s.preferredDate ≠ "" ∧ s.timeWindow ≠ "" ∧
       s.pastLegalAction ≠ .unset) := by
  by_cases hc : s.primaryService = PrimaryService.get_counsel
  · simp only [counselReady, isCounsel, hc, decide_eq_true_eq, not_true,
      if_false, Bool.and_eq_true, decide_eq_true_eq]
    tauto
  · simp [counselReady, isCounsel, hc]

/-- C3 (witness): `c3_amended` applied at the filled state `exC3ready`,
its right-hand side discharged concretely, yields
`counselReady = true`. -/
theorem c3_witness : counselReady exC3ready = true := by
  exact (c3_amended exC3ready).mpr (by refine ⟨rfl, ?_, ?_, ?_, ?_, ?_, ?_⟩ <;> decide)

/-- C4 (confirmed): `readyToBook` is false with no service selected,
equals `counselReady` in the counsel flow, and is true immediately for
any other selected service, regardless of every other field. -/
theorem c4_readyToBook (s : FormState) :
    (s.primaryService = .unset → readyToBook s = false) ∧
    (s.primaryService = .get_counsel → readyToBook s = counselReady s) ∧
    (s.primaryService ≠ .unset → s.primaryService ≠ .get_counsel →
      readyToBook s = true) := by
  refine ⟨fun h => by simp [readyToBook, h], fun h => ?_, fun h1 h2 => ?_⟩
  · simp [readyToBook, isCounsel, h]
  · simp [readyToBook, isCounsel, h1, h2]

/-- C4 (witness): `c4_readyToBook` at the initial state (no selection →
false) and at a `legal_drafting` selection with every other field still
blank (→ true). -/
theorem c4_witness :
    readyToBook initState = false ∧ readyToBook exC4other = true := by
  exact ⟨(c4_readyToBook initState).1 rfl,
    (c4_readyToBook exC4other).2.2 (by decide) (by decide)⟩

/-- C5 (counterexample): the claim as stated is false on the code.  In
`exC5` an email OTP was sent and a 4-character code ("    ", four
blanks) was entered, so by the claim verifying should set
verified = true (entered code length 4 ≥ 4); the code leaves it false,
because the handler measures the TRIMMED code. -/
theorem c5_counterexample :
    4 ≤ strLen exC5.emailOtp ∧
    (apply exC5 .verifyEmailOtp).emailOtpVerified = false := by
  exact ⟨by decide, by decide⟩

/-- C5 (amended): for each channel, the send handler always sets
sent = true, verified = false, and clears the entered code (so a resend
after a successful verification resets verified), and the verify
handler sets verified to exactly the truth value of
(TRIMMED entered code length ≥ 4). -/
theorem c5_amended (s : FormState) :
    ((apply s .sendEmailOtp).emailOtpSent = true ∧
     (apply s .sendEmailOtp).emailOtpVerified = false ∧
     (apply s .sendEmailOtp).emailOtp = "") ∧
    ((apply s .sendPhoneOtp).phoneOtpSent = true ∧
     (apply s .sendPhoneOtp).phoneOtpVerified = false ∧
     (apply s .sendPhoneOtp).phoneOtp = "") ∧
    ((apply s .verifyEmailOtp).emailOtpVerified = true ↔
      4 ≤ trimLen s.emailOtp) ∧
    ((apply s .verifyPhoneOtp).phoneOtpVerified = true ↔
      4 ≤ trimLen s.phoneOtp) := by
  refine ⟨⟨rfl, rfl, rfl⟩, ⟨rfl, rfl, rfl⟩, ?_, ?_⟩ <;>
    simp [apply]

/-- C5 (witness): `c5_amended` at the concrete state `exC5ok` (OTP
sent, code "1234" entered): verifying succeeds. -/
theorem c5_witness :
    (apply exC5ok .verifyEmailOtp).emailOtpVerified = true := by
  exact ((c5_amended exC5ok).2.2.1).mpr (by decide)

/-- C6 (confirmed): in every state reachable from the initial render by
enabled interactions, verified implies sent, for both channels: the
Verify button is disabled while sent is false, and the send handler
that sets sent simultaneously resets verified to false. -/
theorem c6_verified_implies_sent (s : FormState) (h : Reachable s) :
    (s.emailOtpVerified = true → s.emailOtpSent = true) ∧
    (s.phoneOtpVerified = true → s.phoneOtpSent = true) := by
  induction h with
  | init => simp [initState]
  | @step s a _ hg ih =>
    cases a <;> simp_all [apply, enabled]

/-- C6 (witness): `c6_verified_implies_sent` at the concrete reachable
state `exC6`, where both channels were sent, given 4-character codes,
and verified. -/
theorem c6_witness :
    exC6.emailOtpVerified = true ∧ exC6.emailOtpSent = true ∧
    exC6.phoneOtpVerified = true ∧ exC6.phoneOtpSent = true := by
  have hreach : Reachable exC6 :=
    .step (.step (.step (.step (.step (.step .init
      (by decide)) (by decide)) (by decide)) (by decide)) (by decide)) (by decide)
  have h := c6_verified_implies_sent exC6 hreach
  exact ⟨by decide, h.1 (by decide), by decide, h.2 (by decide)⟩

/-- Positions below the enumeration offset are never filtered out. -/
theorem enumFrom_filter_ne_of_lt (i : Nat) :
    ∀ (l : List FileRef) (n : Nat), i < n →
      ((l.enumFrom n).filter (fun p => decide (p.1 ≠ i))).map Prod.snd = l := by
  intro l
  induction l with
  | nil => intro n _; rfl
  | cons a l ih =>
    intro n hn
    have hf := List.filter_cons_of_pos
      (p := fun p : Nat × FileRef => decide (p.1 ≠ i)) (a := (n, a))
      (l := List.enumFrom (n + 1) l) (decide_eq_true (by omega))
    rw [List.enumFrom_cons, hf, List.map_cons, ih (n + 1) (by omega)]

/-- Filtering out index `n + j` from the enumeration starting at `n`
erases exactly the element at position `j`. -/
theorem enumFrom_filter_ne (j : Nat) :
    ∀ (l : List FileRef) (n : Nat),
      ((l.enumFrom n).filter (fun p => decide (p.1 ≠ (n + j)))).map Prod.snd =
        l.eraseIdx j := by
  induction j with
  | zero =>
    intro l n
    cases l with
    | nil => rfl
    | cons a l =>
      have hf := List.filter_cons_of_neg
        (p := fun p : Nat × FileRef => decide (p.1 ≠ (n + 0))) (a := (n, a))
        (l := List.enumFrom (n + 1) l) (by simp)
      rw [List.enumFrom_cons, hf,
        enumFrom_filter_ne_of_lt (n + 0) l (n + 1) (by omega),
        List.eraseIdx_cons_zero]
  | succ j ih =>
    intro l n
    cases l with
    | nil => rfl
    | cons a l =>
      have hf := List.filter_cons_of_pos
        (p := fun p : Nat × FileRef => decide (p.1 ≠ (n + (j + 1)))) (a := (n, a))
        (l := List.enumFrom (n + 1) l) (decide_eq_true (by omega))
      rw [List.enumFrom_cons, hf, List.map_cons, List.eraseIdx_cons_succ,
        show n + (j + 1) = (n + 1) + j by omega, ih l (n + 1)]

/-- The row-indexed filter of the Remove handler is `eraseIdx`. -/
theorem removeFileAt_eq_eraseIdx (l : List FileRef) (i : Nat) :
    removeFileAt l i = l.eraseIdx i := by
  have h := enumFrom_filter_ne i l 0
  rw [Nat.zero_add] at h
  simpa [removeFileAt, List.enum] using h

/-- C7 (confirmed): both the drag-and-drop path and the click-to-pick
path append the new files at the end in their given order, preserving
existing entries and keeping same-name duplicates (plain list append,
no deduplication); and the Remove button at a valid row `i` deletes
exactly the element at position `i`, shifting the later elements down
one position and preserving the relative order of the rest
(`take i ++ drop (i+1)`). -/
theorem c7_attachments (prev extra : List FileRef) (i : Nat) :
    handleDrop prev extra = prev ++ extra ∧
    handlePick prev extra = prev ++ extra ∧
    (i < prev.length →
      removeFileAt prev i = prev.take i ++ prev.drop (i + 1)) := by
  refine ⟨?_, ?_, fun _ => ?_⟩
  · unfold handleDrop
    by_cases h : extra.length = 0
    · simp [h, List.length_eq_zero.mp h]
    · simp [h]
  · unfold handlePick
    by_cases h : extra.length = 0
    · simp [h, List.length_eq_zero.mp h]
    · simp [h]
  · rw [removeFileAt_eq_eraseIdx, List.eraseIdx_eq_take_drop_succ]

/-- C7 (witness): `c7_attachments` at the concrete lists `exFiles`
(which contains a same-name duplicate) and `exNewFiles`, removing
row 1. -/
theorem c7_witness :
    handleDrop exFiles exNewFiles = exFiles ++ exNewFiles ∧
    removeFileAt exFiles 1 = exFiles.take 1 ++ exFiles.drop 2 := by
  exact ⟨(c7_attachments exFiles exNewFiles 1).1,
    (c7_attachments exFiles exNewFiles 1).2.2 (by decide)⟩

/-- Only the Continue handler writes `step`. -/
theorem apply_step_of_ne (s : FormState) (a : Action)
    (h : a ≠ Action.continueToStep2) : (apply s a).step = s.step := by
  cases a <;> simp_all [apply]

/-- Any trace ending with `step = 2` from a start not at step 2
contains an enabled Continue, taken in a state where `canGoStep2`. -/
theorem trace_step2_continue {s0 s : FormState} {acts : List Action}
    (htr : Trace s0 acts s) (h2 : s.step = 2) (h0 : s0.step ≠ 2) :
    ∃ l1 l2 s1, acts = l1 ++ Action.continueToStep2 :: l2 ∧
      Trace s0 l1 s1 ∧ canGoStep2 s1 = true := by
  induction htr with
  | nil => exact absurd h2 h0
  | @cons s t a acts hg htr ih =>
    by_cases ha : a = Action.continueToStep2
    · subst ha
      exact ⟨[], acts, s, rfl, Trace.nil, hg⟩
    · obtain ⟨l1, l2, s1, heq, htr1, hcan⟩ :=
        ih h2 (by rw [apply_step_of_ne s a ha]; exact h0)
      exact ⟨a :: l1, l2, s1, by rw [heq]; rfl, Trace.cons hg htr1, hcan⟩

/-- C8 (confirmed): in any interaction sequence from the initial render
that ends with `step = 2`, an explicit Continue was taken at a moment
where `canGoStep2` was true; no other handler changes `step`; and the
Continue button is enabled exactly when `canGoStep2` holds (it is
disabled otherwise). -/
theorem c8_step2_requires_continue :
    (∀ (acts : List Action) (s : FormState),
      Trace initState acts s → s.step = 2 →
      ∃ l1 l2 s1, acts = l1 ++ Action.continueToStep2 :: l2 ∧
        Trace initState l1 s1 ∧ canGoStep2 s1 = true) ∧
    (∀ (s : FormState) (a : Action), a ≠ Action.continueToStep2 →
      (apply s a).step = s.step) ∧
    (∀ s : FormState, enabled s Action.continueToStep2 = canGoStep2 s) := by
  exact ⟨fun acts s htr h2 => trace_step2_continue htr h2 (by decide),
    apply_step_of_ne, fun s => rfl⟩

/-- C8 (witness): `c8_step2_requires_continue` applied to the concrete
seven-interaction sequence `exC8Acts`, which fills the six required
fields and presses Continue, ending at `step = 2`. -/
theorem c8_witness :
    ∃ l1 l2 s1, exC8Acts = l1 ++ Action.continueToStep2 :: l2 ∧
      Trace initState l1 s1 ∧ canGoStep2 s1 = true := by
  refine c8_step2_requires_continue.1 exC8Acts exC8End ?_ (by decide)
  refine Trace.cons (by decide) ?_
  refine Trace.cons (by decide) ?_
  refine Trace.cons (by decide) ?_
  refine Trace.cons (by decide) ?_
  refine Trace.cons (by decide) ?_
  refine Trace.cons (by decide) ?_
  refine Trace.cons (by decide) ?_
  exact Trace.nil

/-- C9 (confirmed): the Back handler (shared verbatim by the counsel
ready-to-book card and the other-services card) sets `primaryService`
to unset — making `readyToBook` false — and changes no other field:
applicant fields, OTP states, all counsel detail fields, the attachment
list, and the step are unchanged. -/
theorem c9_back_frame (s : FormState) :
    (apply s .backToServices).primaryService = .unset ∧
    readyToBook (apply s .backToServices) = false ∧
    ((apply s .backToServices).step = s.step ∧
     (apply s .backToServices).name = s.name ∧
     (apply s .backToServices).gender = s.gender ∧
     (apply s .backToServices).email = s.email ∧
     (apply s .backToServices).emailOtp = s.emailOtp ∧
     (apply s .backToServices).phone = s.phone ∧
     (apply s .backToServices).phoneOtp = s.phoneOtp ∧
     (apply s .backToServices).nationality = s.nationality ∧
     (apply s .backToServices).dob = s.dob ∧
     (apply s .backToServices).address = s.address ∧
     (apply s .backToServices).emailOtpSent = s.emailOtpSent ∧
     (apply s .backToServices).emailOtpVerified = s.emailOtpVerified ∧
     (apply s .backToServices).phoneOtpSent = s.phoneOtpSent ∧
     (apply s .backToServices).phoneOtpVerified = s.phoneOtpVerified ∧
     (apply s .backToServices).legalDomain = s.legalDomain ∧
     (apply s .backToServices).caseDetails = s.caseDetails ∧
     (apply s .backToServices).consultMode = s.consultMode ∧
     (apply s .backToServices).preferredDate = s.preferredDate ∧
     (apply s .backToServices).timeWindow = s.timeWindow ∧
     (apply s .backToServices).urgency = s.urgency ∧
     (apply s .backToServices).pastLegalAction = s.pastLegalAction ∧
     (apply s .backToServices).files = s.files) := by
  refine ⟨rfl, rfl, rfl, rfl, rfl, rfl, rfl, rfl, rfl, rfl, rfl, rfl, rfl,
    rfl, rfl, rfl, rfl, rfl, rfl, rfl, rfl, rfl, rfl, rfl⟩

/-- C9 (witness): `c9_back_frame` at the filled state `exC9` with a
selected non-counsel service, an attachment, and step 2. -/
theorem c9_witness :
    (apply exC9 .backToServices).primaryService = .unset ∧
    readyToBook (apply exC9 .backToServices) = false ∧
    (apply exC9 .backToServices).files = exC9.files ∧
    (apply exC9 .backToServices).step = exC9.step := by
  exact ⟨(c9_back_frame exC9).1, (c9_back_frame exC9).2.1,
    (c9_back_frame exC9).2.2.2.2.2.2.2.2.2.2.2.2.2.2.2.2.2.2.2.2.2.2.2,
    (c9_back_frame exC9).2.2.1⟩

/-- The time-window select only dispatches one of the five fixed
options, all of which are non-empty. -/
theorem timeWindow_mem_of_enabled (s : FormState) (t : String)
    (h : enabled s (.setTimeWindow t) = true) : t ∈ TIME_WINDOWS ∧ t ≠ "" := by
  simp only [enabled] at h
  have hm : t ∈ TIME_WINDOWS := by
    simpa using h
  refine ⟨hm, ?_⟩
  intro hrfl
  subst hrfl
  have : ("" : String) ∉ TIME_WINDOWS := by decide
  exact this hm

/-- C10 (confirmed): `preferredDate`, `timeWindow`, `urgency` start at
"2026-02-20", "12:00 PM - 02:00 PM", standard_24_48; every enabled
time-window update writes one of the five fixed non-empty options, so
`timeWindow ≠ ""` holds in every reachable state (and `urgency` is a
closed three-value enumeration, so its being set is structural);
immediately after selecting get_counsel from the initial state,
`counselReady` is false, and filling just legalDomain, caseDetails
(trimmed length ≥ 10), consultMode, and pastLegalAction makes it true —
those four are the only fields that can keep it false there. -/
theorem c10_scheduling_invariant :
    (initState.preferredDate = "2026-02-20" ∧
     initState.timeWindow = "12:00 PM - 02:00 PM" ∧
     initState.urgency = .standard_24_48) ∧
    (∀ (s : FormState) (t : String),
      enabled s (.setTimeWindow t) = true → t ∈ TIME_WINDOWS ∧ t ≠ "") ∧
    (∀ s : FormState, Reachable s → s.timeWindow ≠ "") ∧
    counselReady counselSelState = false ∧
    (∀ (d det : String) (m : ConsultMode) (p : PastAction),
      d ≠ "" → 10 ≤ trimLen det → m ≠ .unset → p ≠ .unset →
      counselReady { counselSelState with
                     legalDomain := d, caseDetails := det,
                     consultMode := m, pastLegalAction := p } = true) := by
  refine ⟨⟨rfl, rfl, rfl⟩, timeWindow_mem_of_enabled, ?_, by decide, ?_⟩
  · intro s h
    induction h with
    | init => decide
    | @step s a hr hg ih =>
      cases a <;> first
        | exact (by simpa [apply] using ih)
        | (rename_i t
           exact (by simpa [apply] using (timeWindow_mem_of_enabled s t hg).2))
  · intro d det m p hd hdet hm hp
    unfold counselReady
    rw [if_neg (by simp [isCounsel, counselSelState, apply, initState])]
    simp only [Bool.and_eq_true, decide_eq_true_eq]
    exact ⟨⟨⟨⟨⟨hd, hdet⟩, hm⟩, by decide⟩, by decide⟩, hp⟩

/-- C10 (witness): `c10_scheduling_invariant` instantiated at the
initial state, at a concrete time-window option, and at concrete values
of the four counsel fields. -/
theorem c10_witness :
    initState.timeWindow ≠ "" ∧
    ("10:00 AM - 12:00 PM" ∈ TIME_WINDOWS ∧ "10:00 AM - 12:00 PM" ≠ "") ∧
    counselReady exC10filled = true := by
  exact ⟨c10_scheduling_invariant.2.2.1 initState Reachable.init,
    c10_scheduling_invariant.2.1 initState "10:00 AM - 12:00 PM" (by decide),
    c10_scheduling_invariant.2.2.2.2 "Other" "0123456789" .audio .yes
      (by decide) (by decide) (by decide) (by decide)⟩

end LegalFormUI
